import Mathlib

/-!
Verification development for the pimoroni weather-telemetry repository.

Shallow embedding of the Python sources:
  * `src/main.py`        - full-featured device telemetry server (normative generation)
  * `src/api_server.py`  - minimal-history server generation (identical maybe-log logic)
  * `src/monitor.py` / `src/ble_monitor.py` - desktop monitors (axis scaling, BLE queue)
  * `src/sendToThingSpeak.py` - cloud telemetry uploader
  * `src/qwiic_oled_display.py` - status display driver

Python floats are modelled as rationals (exact real arithmetic); machine ticks
as integers; JSON documents as an inductive `Json` value (the content of the
serialized file / HTTP body); Python exceptions as `Except` values.
-/

namespace Pimoroni

/-- JSON values, as produced/consumed by MicroPython's `json.dumps`/`json.loads`.
Numbers are modelled exactly as rationals. -/
inductive Json where
  | num (q : ℚ)
  | str (s : String)
  | arr (l : List Json)
  | obj (l : List (String × Json))
  deriving Repr

/-- A Python exception surfacing from the embedded code. -/
inductive PyErr where
  | typeError   -- e.g. iterating / unpacking `None`
  | valueError  -- e.g. unpacking a tuple of the wrong arity
  deriving DecidableEq, Repr

/-! ## Sensor acquisition layer (`src/main.py`, `_get_current_sensor_tuple`) -/

/-- One interaction with the BME280 driver plus the wall clock, the inputs that
`_get_current_sensor_tuple` (main.py lines 106-134) consumes.  `raises = true`
models any of the four property reads raising; otherwise each property yields
the stored value (`none` modelling a driver that returned Python `None`). -/
structure SensorEnv where
  ts : ℚ                 -- time.time() at the start of the read
  raises : Bool          -- some property access raised
  temp : Option ℚ        -- mySensor.temperature_fahrenheit
  pres : Option ℚ        -- mySensor.pressure
  hum : Option ℚ         -- mySensor.humidity
  alt : Option ℚ         -- mySensor.altitude_feet
  deriving Repr

/-- `_get_current_sensor_tuple` (main.py lines 106-134): on any exception the
whole call returns `None`; on success it returns the 5-tuple
`(timestamp, temp_f, pressure_pa, humidity_pct, altitude_ft)`.  The tuple is
modelled as a list of optional values (the timestamp slot is always present). -/
def getCurrentSensorTuple (env : SensorEnv) : Option (List (Option ℚ)) :=
  if env.raises then none
  else some [some env.ts, env.temp, env.pres, env.hum, env.alt]

/-- Whether the call to `_get_current_sensor_tuple` updates the OLED: the
display update (`oled_display_sensor`) happens inside the `try` block right
before the tuple is returned, and catches its own errors, so it is reached
exactly when no property read raised.  The value records the `ip_addr`
argument that was passed along. -/
def displayUpdateOf (env : SensorEnv) (ip : Option String) : Option (Option String) :=
  if env.raises then none else some ip

/-! ## Python tuple unpacking and the HTML page (`webpage`, main.py 170-216) -/

/-- Python `a, b, c, d = v` where `v` is either `None` or a tuple (modelled as a
list): unpacking `None` raises `TypeError` (not iterable); a tuple whose arity
is not 4 raises `ValueError`. -/
def unpack4 (v : Option (List (Option ℚ))) :
    Except PyErr (Option ℚ × Option ℚ × Option ℚ × Option ℚ) :=
  match v with
  | none => .error .typeError
  | some l =>
    match l with
    | [a, b, c, d] => .ok (a, b, c, d)
    | _ => .error .valueError

/-- `f"{v:.2f}" if v is not None else "N/A"` — the formatted sensor value.
The exact decimal rendering is immaterial to every claim (the branch is
unreachable in the full-featured generation); a plain rational rendering
stands in for the `.2f` format. -/
def fmtSensorVal (v : Option ℚ) : String :=
  match v with
  | none => "N/A"
  | some q => toString q

/-- The static HTML control page built by `webpage` after a successful unpack
(main.py lines 177-216).  The claims never inspect the page text, only that an
HTML string is produced; the template is abbreviated to its data-carrying
parts. -/
def htmlDocument (tempS pressS humS altS led : String) : String :=
  "<html>Pico W Sensor Server LED:" ++ led ++ " T:" ++ tempS ++ " P:" ++ pressS
    ++ " H:" ++ humS ++ " A:" ++ altS ++ "</html>"

/-- `webpage(current_sensor_tuple, led_state)` (main.py lines 170-216).  The
first statement is `temp, press, hum, alt = current_sensor_tuple`, a 4-way
unpack of the value produced by `_get_current_sensor_tuple`. -/
def webpage (v : Option (List (Option ℚ))) (ledState : String) : Except PyErr String := do
  let (temp, press, hum, alt) ← unpack4 v
  pure (htmlDocument (fmtSensorVal temp) (fmtSensorVal press)
        (fmtSensorVal hum) (fmtSensorVal alt) ledState)

/-! ## Historical data store (`log_historical_data`, main.py 218-238) -/

/-- Sampling interval of the full-featured generation (main.py line 18). -/
def SAVE_INTERVAL_S : Int := 5

/-- Retention window (main.py line 20). -/
def HISTORY_DURATION_S : ℚ := 86400

/-- Timestamp of a history record: `record[0]`.  Records built by the code are
JSON arrays whose head is a number; any other shape defaults to 0 (such a
record would make the Python indexing raise; no claim exercises that case). -/
def tsOf : Json → ℚ
  | .arr (.num q :: _) => q
  | _ => 0

/-- The pruning pass (main.py lines 233-236):
`while historical_data and (now - historical_data[0][0] > HISTORY_DURATION_S): pop(0)`. -/
def prune (now : ℚ) : List Json → List Json
  | [] => []
  | r :: rest => if now - tsOf r > HISTORY_DURATION_S then prune now rest else r :: rest

/-- Mutable state touched by `log_historical_data`. -/
structure LogState where
  history : List Json          -- historical_data
  lastSaveTicksMs : Int        -- last_save_ticks_ms
  deriving Repr

/-- `log_historical_data()` (main.py lines 218-238).  `nowTicks` is
`time.ticks_ms()` at entry; `t1` and `t2` are the two separate `time.time()`
calls (line 227 for the record, line 233 for the prune).  When the sensor read
returns `None`, the generator expression inside `all(...)` raises `TypeError`;
the state is unchanged either way (the caller catches the exception), and in
the `else` branch (a field is `None`) the tick counter is *not* reset. -/
def log_historical_data (env : SensorEnv) (nowTicks : Int) (t1 t2 : ℚ)
    (st : LogState) : LogState :=
  if nowTicks - st.lastSaveTicksMs ≥ SAVE_INTERVAL_S * 1000 then
    match getCurrentSensorTuple env with
    | none => st                       -- `all(... for val in None)` raises TypeError
    | some tup =>
      if tup.all Option.isSome then
        -- historical_data.append((current_timestamp,) + current_data_tuple)
        let newRecord := Json.arr (Json.num t1 :: tup.map (fun o => Json.num (o.getD 0)))
        let h := st.history ++ [newRecord]
        { history := prune t2 h, lastSaveTicksMs := nowTicks }
      else
        st                             -- "Skipping logging": no append, no tick reset
  else st

/-! ## Flash persistence (`save_history_to_flash` / `load_history_from_flash`,
main.py 136-168).  The file `sensor_history.json` is modelled by its parsed
JSON content (`Option Json`: `none` = file missing). -/

/-- A well-formed history record per the data model: the 5-tuple
`(timestamp, temp_f, pressure_pa, humidity_pct, altitude_ft)`. -/
abbrev Record5 := ℚ × ℚ × ℚ × ℚ × ℚ

/-- How `json.dump` serializes a Python 5-tuple of floats: a 5-element JSON
array. -/
def record5ToJson (r : Record5) : Json :=
  .arr [.num r.1, .num r.2.1, .num r.2.2.1, .num r.2.2.2.1, .num r.2.2.2.2]

/-- Decoder for a well-formed record, inverse view of `record5ToJson`. -/
def jsonToRecord5 : Json → Option Record5
  | .arr [.num a, .num b, .num c, .num d, .num e] => some (a, b, c, d, e)
  | _ => none

/-- `save_history_to_flash` (main.py 136-150) on a successful write: the new
content of `sensor_history.json` is `json.dump(historical_data)`, a JSON array
of the in-memory records. -/
def save_history_to_flash (history : List Json) : Json :=
  .arr history

/-- `load_history_from_flash` (main.py 152-168): a missing file (OSError)
leaves `historical_data` unchanged (it is `[]` at startup); a JSON value that
is a list replaces it; any other JSON value resets it to `[]`. -/
def load_history_from_flash (file : Option Json) (old : List Json) : List Json :=
  match file with
  | none => old
  | some j =>
    match j with
    | .arr xs => xs
    | _ => []

/-! ## Full-featured request handling (main.py 393-507) -/

/-- An HTTP response as framed by main.py lines 473-481 (status line, content
type, body). -/
structure Response where
  status : Nat
  contentType : String
  body : Json
  deriving Repr

/-- Result of one pass through the request-handling block: the response sent,
the `state` variable afterwards, the value written to the LED pin (if any),
and the OLED update performed (with the ip argument), if any. -/
structure HandleResult where
  resp : Response
  state : String
  ledOn : Option Bool
  display : Option (Option String)
  deriving Repr

/-- The 500 response sent by the outer `except` handler (main.py 495-502) when
an exception escapes the dispatch while `status_code` is still 200 — which is
the case at every raise site modelled here (both raise sites occur before any
non-200 status is assigned). -/
def internalServerError : Response :=
  ⟨500, "text/plain", .str "Internal Server Error"⟩

/-- The route dispatch of the full-featured generation (main.py lines 407-470)
plus the outer exception handler (491-502).  `parts` is the whitespace-split
first request line; `state0` the current `state` variable; `ip` the device IP
(`ip_address`).  Branches follow the source order exactly. -/
def handleRequest (env : SensorEnv) (history : List Json) (ip : Option String)
    (state0 : String) (parts : List String) : HandleResult :=
  if parts.length ≥ 2 then
    let path := parts.getD 1 ""
    if path = "/lighton" ∨ path = "/lighton?" then
      -- led.value(1); state = "ON"; response = webpage(_get_current_sensor_tuple(ip), state)
      let disp := displayUpdateOf env ip
      match webpage (getCurrentSensorTuple env) "ON" with
      | .ok html => ⟨⟨200, "text/html", .str html⟩, "ON", some true, disp⟩
      | .error _ => ⟨internalServerError, "ON", some true, disp⟩
    else if path = "/lightoff" ∨ path = "/lightoff?" then
      let disp := displayUpdateOf env ip
      match webpage (getCurrentSensorTuple env) "OFF" with
      | .ok html => ⟨⟨200, "text/html", .str html⟩, "OFF", some false, disp⟩
      | .error _ => ⟨internalServerError, "OFF", some false, disp⟩
    else if path = "/sensor?all=true" then
      -- response = json.dumps(historical_data)
      ⟨⟨200, "application/json", .arr history⟩, state0, none, none⟩
    else if path = "/sensor" ∨ path = "/sensor?" then
      let disp := displayUpdateOf env ip
      match getCurrentSensorTuple env with
      | none =>
        -- `all(v is not None for v in current_data)` iterates `None`: TypeError → 500
        ⟨internalServerError, state0, none, disp⟩
      | some tup =>
        if tup.all Option.isSome then
          ⟨⟨200, "application/json", .obj
            [("timestamp", .num ((tup.getD 0 none).getD 0)),
             ("temperature_f", .num ((tup.getD 1 none).getD 0)),
             ("pressure_pa", .num ((tup.getD 2 none).getD 0)),
             ("humidity_percent", .num ((tup.getD 3 none).getD 0)),
             ("altitude_ft", .num ((tup.getD 4 none).getD 0))]⟩,
           state0, none, disp⟩
        else
          ⟨⟨503, "application/json", .obj [("error", .str "Sensor read failure")]⟩,
           state0, none, disp⟩
    else if path = "/" ∨ path = "/?" then
      let disp := displayUpdateOf env ip
      match webpage (getCurrentSensorTuple env) state0 with
      | .ok html => ⟨⟨200, "text/html", .str html⟩, state0, none, disp⟩
      | .error _ => ⟨internalServerError, state0, none, disp⟩
    else
      ⟨⟨404, "text/plain", .str "Not Found"⟩, state0, none, none⟩
  else
    ⟨⟨400, "text/plain", .str "Bad Request"⟩, state0, none, none⟩

/-! ## Desktop monitors: axis scaling (`update_data_ranges`,
monitor.py 134-198 and ble_monitor.py 104-171, identical computation) -/

inductive SeriesKey where
  | temperature | pressure | humidity | altitude
  deriving DecidableEq, Repr

/-- Fixed absolute pad used when the visible spread is below `1e-6`
(monitor.py 153-157). -/
def zeroRangeBuffer : SeriesKey → ℚ
  | .temperature => 1/2
  | .humidity => 1/2
  | .pressure => 50
  | .altitude => 5

/-- The padded Y-range `(min_val, max_val)` computed from the visible minimum
and maximum (monitor.py 148-163). -/
def paddedRange (key : SeriesKey) (currentMin currentMax : ℚ) : ℚ × ℚ :=
  let dataRange := currentMax - currentMin
  if dataRange < 1/1000000 then
    (currentMin - zeroRangeBuffer key, currentMax + zeroRangeBuffer key)
  else
    let buffer := dataRange * (1/10)
    (currentMin - buffer, currentMax + buffer)

/-- Python 3 `round` on a float/rational: round-half-to-even. -/
def pyRound (q : ℚ) : Int :=
  let f := ⌊q⌋
  let r := q - f
  if r < 1/2 then f
  else if 1/2 < r then f + 1
  else if Even f then f else f + 1

/-- Target number of major ticks (monitor.py line 170). -/
def num_ticks_target : ℚ := 5

/-- Temperature major tick step (monitor.py 173-178). -/
def temperatureMajorStep (tickRange : ℚ) : ℚ :=
  if tickRange ≤ 1 then 1/5
  else if tickRange ≤ 2 then 1/2
  else if tickRange ≤ 5 then 1
  else if tickRange ≤ 10 then 2
  else max 1 (pyRound (tickRange / num_ticks_target))

/-- Pressure major tick step (monitor.py 180-183): `max(100, ceil(r/5/100)*100)`. -/
def pressureMajorStep (tickRange : ℚ) : ℚ :=
  max 100 ((⌈tickRange / num_ticks_target / 100⌉ : ℚ) * 100)

/-- Humidity major tick step (monitor.py 184-189). -/
def humidityMajorStep (tickRange : ℚ) : ℚ :=
  if tickRange ≤ 2 then 1/2
  else if tickRange ≤ 5 then 1
  else if tickRange ≤ 10 then 2
  else max 1 (pyRound (tickRange / num_ticks_target))

/-- Altitude major tick step (monitor.py 190-193): `max(10, ceil(r/5/10)*10)`. -/
def altitudeMajorStep (tickRange : ℚ) : ℚ :=
  max 10 ((⌈tickRange / num_ticks_target / 10⌉ : ℚ) * 10)

/-- The per-series major step dispatch of `update_data_ranges`. -/
def majorStep (key : SeriesKey) (tickRange : ℚ) : ℚ :=
  match key with
  | .temperature => temperatureMajorStep tickRange
  | .pressure => pressureMajorStep tickRange
  | .humidity => humidityMajorStep tickRange
  | .altitude => altitudeMajorStep tickRange

/-! ## BLE monitor hand-off queue (ble_monitor.py 63-65 and 249-260) -/

/-- The bit patterns of the four little-endian 32-bit values carried by one
notification (the IEEE-754 interpretation is a bijection on the 32-bit words
and is immaterial to the queue claims). -/
abbrev Word4 := Nat × Nat × Nat × Nat

/-- An `asyncio.Queue`: per the asyncio semantics, `maxsize <= 0` means the
queue size is infinite; `full()` is `qsize() >= maxsize` only when
`maxsize > 0`. -/
structure AsyncQueue where
  maxsize : Int
  items : List Word4
  deriving Repr

/-- `asyncio.Queue.full()`. -/
def AsyncQueue.full (q : AsyncQueue) : Bool :=
  if q.maxsize ≤ 0 then false else (q.items.length : Int) ≥ q.maxsize

/-- `asyncio.Queue.put_nowait(x)`: raises `QueueFull` (the `.error` case) when
the queue is full, otherwise appends. -/
def AsyncQueue.put_nowait (q : AsyncQueue) (x : Word4) : Except Unit AsyncQueue :=
  if q.full then .error () else .ok ⟨q.maxsize, q.items ++ [x]⟩

/-- The queue constructed in `SensorMonitorBLE.__init__` (ble_monitor.py line
65): `asyncio.Queue()` — the default `maxsize` is 0, i.e. infinite capacity. -/
def notification_queue_init : AsyncQueue := ⟨0, []⟩

/-- A little-endian 32-bit word from four bytes. -/
def word32LE (b0 b1 b2 b3 : Nat) : Nat :=
  b0 + 256 * b1 + 65536 * b2 + 16777216 * b3

/-- `struct.unpack("<ffff", data)` (ble_monitor.py line 254): succeeds exactly
on 16-byte payloads, yielding four little-endian 32-bit values; any other
length raises `struct.error`. -/
def unpack_ffff (data : List Nat) : Option Word4 :=
  match data with
  | [b0, b1, b2, b3, b4, b5, b6, b7, b8, b9, b10, b11, b12, b13, b14, b15] =>
    some (word32LE b0 b1 b2 b3, word32LE b4 b5 b6 b7,
          word32LE b8 b9 b10 b11, word32LE b12 b13 b14 b15)
  | _ => none

/-- `SensorMonitorBLE.notification_handler` (ble_monitor.py 249-260): unpack
the payload and `put_nowait` it; `struct.error` (wrong size) is caught and the
payload discarded; `asyncio.QueueFull` is caught and the data point skipped.
The handler never raises (it is a total function into the new queue state). -/
def notification_handler (q : AsyncQueue) (data : List Nat) : AsyncQueue :=
  match unpack_ffff data with
  | none => q
  | some t =>
    match q.put_nowait t with
    | .ok q' => q'
    | .error _ => q

/-! ## Cloud telemetry uploader (sendToThingSpeak.py 58-86) -/

/-- Outcome of one iteration of the inner `for retries in range(60)` loop:
wifi down (wait 1 s), POST raised (except branch, wait 1 s), or POST
succeeded (break). -/
inductive AttemptOutcome where
  | notConnected | postFail | postSuccess
  deriving DecidableEq, Repr

/-- Observable events of one upload cycle: an inner-loop attempt, or the
`machine.reset()` call. -/
inductive CycleEvent where
  | attempt (o : AttemptOutcome) | reboot
  deriving DecidableEq, Repr

/-- The inner `for ... else` loop: iterate over the (at most 60) attempt
outcomes; a success `break`s (skipping the `else`); exhausting the range
without a break runs the `else:` branch, which calls `machine.reset()`. -/
def innerLoop : List AttemptOutcome → List CycleEvent
  | [] => [.reboot]
  | o :: rest =>
    if o = .postSuccess then [.attempt o] else .attempt o :: innerLoop rest

/-- One full upload cycle: the event trace of `for retries in range(60)` with
its `else` clause, given the outcome each attempt would have. -/
def uploadCycle (o : Nat → AttemptOutcome) : List CycleEvent :=
  innerLoop ((List.range 60).map o)

/-! ## Status display driver (qwiic_oled_display.py) -/

def LCDWIDTH : Nat := 128
def LCDHEIGHT : Nat := 32
def PAGES : Nat := 4

/-- The framebuffer allocated in `__init__` (line 144):
`bytearray(width * pages)` = 512 zero bytes. -/
def initBuffer : List Nat := List.replicate (LCDWIDTH * PAGES) 0

/-- The hand-authored 5-byte-per-glyph font table `_FONT`
(qwiic_oled_display.py 93-127). -/
def FONT (c : Char) : Option (List Nat) :=
  if c = 'H' then some [0x7F, 0x08, 0x08, 0x08, 0x7F]
  else if c = 'e' then some [0x38, 0x54, 0x54, 0x54, 0x18]
  else if c = 'l' then some [0x00, 0x41, 0x7F, 0x40, 0x00]
  else if c = 'L' then some [0x7F, 0x40, 0x40, 0x40, 0x40]
  else if c = 'o' then some [0x38, 0x44, 0x44, 0x44, 0x38]
  else if c = ' ' then some [0x00, 0x00, 0x00, 0x00, 0x00]
  else if c = 'W' then some [0x7F, 0x20, 0x18, 0x20, 0x7F]
  else if c = 'r' then some [0x38, 0x04, 0x04, 0x04, 0x08]
  else if c = 'd' then some [0x30, 0x48, 0x48, 0x48, 0x7F]
  else if c = 'T' then some [0x01, 0x01, 0x7F, 0x01, 0x01]
  else if c = 'm' then some [0x7C, 0x08, 0x04, 0x08, 0x7C]
  else if c = 'n' then some [0x7C, 0x08, 0x04, 0x04, 0x78]
  else if c = 'p' then some [0x7F, 0x09, 0x09, 0x09, 0x06]
  else if c = 'u' then some [0x38, 0x40, 0x40, 0x40, 0x78]
  else if c = 'i' then some [0x00, 0x44, 0x7D, 0x40, 0x00]
  else if c = 't' then some [0x04, 0x3F, 0x44, 0x40, 0x20]
  else if c = 's' then some [0x48, 0x54, 0x54, 0x54, 0x24]
  else if c = 'y' then some [0x0C, 0x50, 0x50, 0x50, 0x3C]
  else if c = 'F' then some [0x7F, 0x09, 0x09, 0x09, 0x01]
  else if c = 'C' then some [0x3E, 0x41, 0x41, 0x41, 0x22]
  else if c = '%' then some [0x23, 0x13, 0x08, 0x64, 0x62]
  else if c = '.' then some [0x00, 0x00, 0x60, 0x60, 0x00]
  else if c = ':' then some [0x00, 0x36, 0x36, 0x00, 0x00]
  else if c = '0' then some [0x3E, 0x51, 0x49, 0x45, 0x3E]
  else if c = '1' then some [0x00, 0x42, 0x7F, 0x40, 0x00]
  else if c = '2' then some [0x42, 0x61, 0x51, 0x49, 0x46]
  else if c = '3' then some [0x21, 0x41, 0x45, 0x4B, 0x31]
  else if c = '4' then some [0x18, 0x14, 0x12, 0x7F, 0x10]
  else if c = '5' then some [0x27, 0x45, 0x45, 0x45, 0x39]
  else if c = '6' then some [0x3C, 0x4A, 0x49, 0x49, 0x30]
  else if c = '7' then some [0x01, 0x71, 0x09, 0x05, 0x03]
  else if c = '8' then some [0x36, 0x49, 0x49, 0x49, 0x36]
  else if c = '9' then some [0x06, 0x49, 0x49, 0x29, 0x1E]
  else none

/-- The inner `for col in range(5)` loop of `_draw_char` (lines 267-275),
threading the buffer plus a flag recording whether the
"Buffer index ... out of range" warning branch was ever taken (i.e. whether a
write was attempted outside the framebuffer). -/
def drawCols (fontData : List Nat) (x page : Nat) :
    List Nat → List Nat × Bool → List Nat × Bool
  | [], acc => acc
  | col :: rest, acc =>
    if x + col < LCDWIDTH then
      let idx := page * LCDWIDTH + x + col
      if idx < acc.1.length then
        drawCols fontData x page rest (acc.1.set idx (fontData.getD col 0), acc.2)
      else
        drawCols fontData x page rest (acc.1, true)
    else
      drawCols fontData x page rest acc

/-- `_draw_char(x, page, char)` (lines 261-277): characters outside the font
are skipped with a diagnostic; otherwise the five guarded column writes run. -/
def draw_char (buf : List Nat) (x page : Nat) (c : Char) : List Nat × Bool :=
  match FONT c with
  | none => (buf, false)
  | some fontData => drawCols fontData x page (List.range 5) (buf, false)

/-- The `for i, char in enumerate(text)` loop of `print` (lines 257-259): a
glyph is drawn only under the guard `x + i*6 < width`. -/
def printLoop (x page : Nat) : Nat → List Char → List Nat × Bool → List Nat × Bool
  | _, [], acc => acc
  | i, c :: rest, acc =>
    if x + i * 6 < LCDWIDTH then
      let r := draw_char acc.1 (x + i * 6) page c
      printLoop x page (i + 1) rest (r.1, acc.2 || r.2)
    else
      printLoop x page (i + 1) rest acc

/-- `QwiicOledDisplay.print(text, x, y)` (lines 247-259): compute the page as
`y // 8`; a page beyond the 4 available makes the call a no-op; otherwise
rasterize the text.  The second component records whether any out-of-range
buffer write was ever attempted. -/
def oledPrint (buf : List Nat) (text : List Char) (x y : Nat) : List Nat × Bool :=
  let page := y / 8
  if page ≥ PAGES then (buf, false)
  else printLoop x page 0 text (buf, false)

/-! ## Concrete sensor environments used to evaluate the server code -/

/-- A fully successful sensor interaction at time 1000:
70 °F, 101325 Pa, 45 %, 512 ft. -/
def sensorEnvOK : SensorEnv := ⟨1000, false, some 70, some 101325, some 45, some 512⟩

/-- A sensor interaction where the humidity property yields `None`. -/
def sensorEnvNoHum : SensorEnv := ⟨1000, false, some 70, some 101325, none, some 512⟩

/-- A failed sensor transaction: a property read raises, so
`_get_current_sensor_tuple` returns `None`. -/
def sensorEnvRaising : SensorEnv := ⟨1000, true, some 70, some 101325, some 45, some 512⟩

/-- Number of elements of a JSON array (0 for non-arrays); used to state the
arity of served history records. -/
def jsonArrayLength : Json → Nat
  | .arr l => l.length
  | _ => 0

/-- The server state after one due, successful maybe-log step starting from an
empty history: interval elapsed (6000 − 0 ≥ 5000 ticks), reading taken at
wall-clock time 1000. -/
def stateAfterOneLog : LogState :=
  log_historical_data sensorEnvOK 6000 1000 1000 ⟨[], 0⟩

/-! ## Helper lemmas -/

/-- After the pruning loop, the head of the result (if any) is young enough,
and the loop only ever removes elements from the front. -/
theorem prune_retention (now : ℚ) :
    ∀ l : List Json, l.Pairwise (fun a b => tsOf a ≤ tsOf b) →
      ∀ r ∈ prune now l, now - tsOf r ≤ HISTORY_DURATION_S := by
  intro l
  induction l with
  | nil => intro _ r hr; simp [prune] at hr
  | cons a rest ih =>
    intro hp r hr
    rw [List.pairwise_cons] at hp
    rw [prune] at hr
    split at hr
    · exact ih hp.2 r hr
    · rename_i hyoung
      push_neg at hyoung
      rcases List.mem_cons.mp hr with h | h
      · subst h; exact hyoung
      · have := hp.1 r h
        linarith

/-- Decoding the serialized form of a well-formed record recovers it. -/
theorem jsonToRecord5_record5ToJson (r : Record5) :
    jsonToRecord5 (record5ToJson r) = some r := by
  obtain ⟨a, b, c, d, e⟩ := r
  rfl

/-- If no inner-loop attempt succeeds, the `for`/`else` runs every attempt and
then the `else` branch: the trace is the 60 attempts followed by the reboot. -/
theorem innerLoop_of_no_success :
    ∀ outs : List AttemptOutcome, (∀ x ∈ outs, x ≠ .postSuccess) →
      innerLoop outs = outs.map CycleEvent.attempt ++ [.reboot] := by
  intro outs
  induction outs with
  | nil => intro _; rfl
  | cons o rest ih =>
    intro h
    have ho : o ≠ .postSuccess := h o (List.mem_cons_self o rest)
    simp only [innerLoop, if_neg ho, List.map_cons, List.cons_append, List.cons.injEq, true_and]
    exact ih fun x hx => h x (List.mem_cons_of_mem o hx)

/-- If some attempt succeeds, the loop `break`s and the `else` branch (the
reboot) never runs. -/
theorem innerLoop_of_success :
    ∀ outs : List AttemptOutcome, .postSuccess ∈ outs →
      CycleEvent.reboot ∉ innerLoop outs := by
  intro outs
  induction outs with
  | nil => intro h; simp at h
  | cons o rest ih =>
    intro h hmem
    by_cases ho : o = AttemptOutcome.postSuccess
    · rw [innerLoop, if_pos ho] at hmem
      simp at hmem
    · rw [innerLoop, if_neg ho] at hmem
      rcases List.mem_cons.mp hmem with h' | h'
      · exact absurd h'.symm (by simp)
      · have : AttemptOutcome.postSuccess ∈ rest := by
          rcases List.mem_cons.mp h with h'' | h''
          · exact absurd h''.symm ho
          · exact h''
        exact ih this h'

/-- The five guarded column writes of `_draw_char` preserve the framebuffer
length and never reach the out-of-range warning branch when the page is one of
the four valid pages: the write index `page*128 + x + col` is below 512
whenever the column guard `x + col < 128` held. -/
theorem drawCols_inv (fontData : List Nat) (x page : Nat) (hpage : page < 4) :
    ∀ (cols : List Nat) (acc : List Nat × Bool),
      acc.1.length = 512 → acc.2 = false →
      (drawCols fontData x page cols acc).1.length = 512 ∧
        (drawCols fontData x page cols acc).2 = false := by
  intro cols
  induction cols with
  | nil => intro acc h1 h2; simpa [drawCols] using ⟨h1, h2⟩
  | cons col rest ih =>
    intro acc h1 h2
    rw [drawCols]
    by_cases hguard : x + col < LCDWIDTH
    · rw [if_pos hguard]
      have hidx : page * LCDWIDTH + x + col < acc.1.length := by
        rw [h1]
        simp only [LCDWIDTH] at hguard ⊢
        omega
      rw [if_pos hidx]
      exact ih _ (by simpa using h1) h2
    · rw [if_neg hguard]
      exact ih acc h1 h2

/-- `_draw_char` preserves the framebuffer length and performs no
out-of-range write on a valid page. -/
theorem draw_char_inv (buf : List Nat) (x page : Nat) (c : Char)
    (hpage : page < 4) (hlen : buf.length = 512) :
    (draw_char buf x page c).1.length = 512 ∧ (draw_char buf x page c).2 = false := by
  rw [draw_char]
  cases h : FONT c with
  | none => simpa using hlen
  | some fontData => exact drawCols_inv fontData x page hpage _ _ hlen rfl

/-- The glyph loop of `print` preserves the invariant on a valid page. -/
theorem printLoop_inv (x page : Nat) (hpage : page < 4) :
    ∀ (chars : List Char) (i : Nat) (acc : List Nat × Bool),
      acc.1.length = 512 → acc.2 = false →
      (printLoop x page i chars acc).1.length = 512 ∧
        (printLoop x page i chars acc).2 = false := by
  intro chars
  induction chars with
  | nil => intro i acc h1 h2; simpa [printLoop] using ⟨h1, h2⟩
  | cons c rest ih =>
    intro i acc h1 h2
    rw [printLoop]
    by_cases hguard : x + i * 6 < LCDWIDTH
    · rw [if_pos hguard]
      have hd := draw_char_inv acc.1 (x + i * 6) page c hpage h1
      exact ih _ _ hd.1 (by simp [h2, hd.2])
    · rw [if_neg hguard]
      exact ih _ acc h1 h2

/-- When every glyph start column is clipped (`x ≥ 128`), the glyph loop does
nothing. -/
theorem printLoop_clipped (x page : Nat) (hx : 128 ≤ x) :
    ∀ (chars : List Char) (i : Nat) (acc : List Nat × Bool),
      printLoop x page i chars acc = acc := by
  intro chars
  induction chars with
  | nil => intro i acc; rfl
  | cons c rest ih =>
    intro i acc
    have hguard : ¬ (x + i * 6 < LCDWIDTH) := by simp only [LCDWIDTH]; omega
    rw [printLoop, if_neg hguard]
    exact ih _ acc

/-! ## Claim theorems -/

/-- C1 (code bug): the claim says every element served by
`GET /sensor?all=true` is a 5-element `[timestamp, temp, pressure, humidity,
altitude]` array.  The response array's length does equal the in-memory
history length (the body is exactly the history array), but
`log_historical_data` appends `(current_timestamp,) + current_data_tuple`
where `_get_current_sensor_tuple` already returns a timestamp-led 5-tuple, so
every logged record is a 6-element array (the timestamp appears twice) —
contrary to the claim and to the code's own comments (main.py lines 23, 434).
Evaluated here at the reachable state after one successful log step. -/
theorem C1_code_evaluation :
    stateAfterOneLog.history =
      [.arr [.num 1000, .num 1000, .num 70, .num 101325, .num 45, .num 512]] ∧
    stateAfterOneLog.history.length = 1 ∧
    stateAfterOneLog.history.map jsonArrayLength = [6] ∧
    (handleRequest sensorEnvOK stateAfterOneLog.history none "OFF"
        ["GET", "/sensor?all=true", "HTTP/1.0"]).resp =
      ⟨200, "application/json", .arr stateAfterOneLog.history⟩ := by
  have hhist : stateAfterOneLog.history =
      [.arr [.num 1000, .num 1000, .num 70, .num 101325, .num 45, .num 512]] := by
    norm_num [stateAfterOneLog, log_historical_data, getCurrentSensorTuple,
      prune, tsOf, HISTORY_DURATION_S, SAVE_INTERVAL_S, sensorEnvOK]
  refine ⟨hhist, by rw [hhist]; rfl, by rw [hhist]; rfl, ?_⟩
  rw [hhist]
  rfl

/-- C2 (code bug): the claim says `/`, `/lighton`, `/lightoff` are answered
200 with the HTML control page.  In the full-featured server, `webpage`
unpacks its argument as `temp, press, hum, alt = current_sensor_tuple`, but
`_get_current_sensor_tuple` returns a 5-tuple `(timestamp, t, p, h, a)`, so
the unpack raises `ValueError`; the outer handler then sends
500 "Internal Server Error" instead of the page.  The LED is still toggled
and the OLED still updated with the IP (those happen before the raise). -/
theorem C2_code_evaluation :
    webpage (getCurrentSensorTuple sensorEnvOK) "ON" = .error .valueError ∧
    (handleRequest sensorEnvOK [] (some "192.168.0.201") "OFF"
        ["GET", "/", "HTTP/1.0"]).resp = internalServerError ∧
    (handleRequest sensorEnvOK [] (some "192.168.0.201") "OFF"
        ["GET", "/lighton", "HTTP/1.0"]).resp = internalServerError ∧
    (handleRequest sensorEnvOK [] (some "192.168.0.201") "OFF"
        ["GET", "/lighton", "HTTP/1.0"]).ledOn = some true ∧
    (handleRequest sensorEnvOK [] (some "192.168.0.201") "OFF"
        ["GET", "/lighton", "HTTP/1.0"]).display = some (some "192.168.0.201") ∧
    (handleRequest sensorEnvOK [] (some "192.168.0.201") "OFF"
        ["GET", "/lightoff", "HTTP/1.0"]).resp = internalServerError ∧
    (handleRequest sensorEnvOK [] (some "192.168.0.201") "OFF"
        ["GET", "/lightoff", "HTTP/1.0"]).ledOn = some false ∧
    internalServerError.status = 500 := by
  refine ⟨rfl, rfl, rfl, rfl, rfl, rfl, rfl, rfl⟩

/-- C3 (code bug): `GET /sensor` with all four fields present returns 200 with
the five JSON keys, and a reading with an absent field returns 503 with the
fixed error body — both as claimed.  But for a failed sensor transaction,
`_get_current_sensor_tuple` returns `None`, and the route's
`all(v is not None for v in current_data)` then iterates `None`, raising
`TypeError`; the outer handler responds 500, not the claimed 503. -/
theorem C3_code_evaluation :
    (handleRequest sensorEnvOK [] none "OFF" ["GET", "/sensor", "HTTP/1.0"]).resp =
      ⟨200, "application/json", .obj
        [("timestamp", .num 1000), ("temperature_f", .num 70),
         ("pressure_pa", .num 101325), ("humidity_percent", .num 45),
         ("altitude_ft", .num 512)]⟩ ∧
    (handleRequest sensorEnvNoHum [] none "OFF" ["GET", "/sensor", "HTTP/1.0"]).resp =
      ⟨503, "application/json", .obj [("error", .str "Sensor read failure")]⟩ ∧
    (handleRequest sensorEnvRaising [] none "OFF" ["GET", "/sensor", "HTTP/1.0"]).resp =
      internalServerError ∧
    (handleRequest sensorEnvRaising [] none "OFF"
        ["GET", "/sensor", "HTTP/1.0"]).resp.status ≠ 503 := by
  refine ⟨rfl, rfl, rfl, by decide⟩

/-- C4 counterexample: the claim says that when the sampling interval has
elapsed but a field of the fresh reading is unavailable, the last-sample tick
counter is *still reset to the current tick*.  Concretely: interval elapsed
(ticks 6000 vs 0, ≥ 5000), humidity `None`.  The code takes the `else` branch
("Skipping logging"), which neither appends nor touches
`last_save_ticks_ms`: the counter stays 0 instead of becoming 6000. -/
theorem C4_counterexample :
    (log_historical_data sensorEnvNoHum 6000 1000 1000 ⟨[], 0⟩).history = [] ∧
    (log_historical_data sensorEnvNoHum 6000 1000 1000 ⟨[], 0⟩).lastSaveTicksMs = 0 ∧
    (log_historical_data sensorEnvNoHum 6000 1000 1000 ⟨[], 0⟩).lastSaveTicksMs ≠ 6000 := by
  refine ⟨rfl, rfl, by decide⟩

/-- C4 (amended): whenever the sampling interval has elapsed but the fresh
sensor reading has any field unavailable, no record is appended AND the
last-sample tick counter is left unchanged (not reset), so the next logging
attempt occurs on the very next loop iteration rather than a full sampling
interval later. -/
theorem C4_amended (env : SensorEnv) (nowTicks : Int) (t1 t2 : ℚ) (st : LogState)
    (tup : List (Option ℚ))
    (helapsed : nowTicks - st.lastSaveTicksMs ≥ SAVE_INTERVAL_S * 1000)
    (hread : getCurrentSensorTuple env = some tup)
    (hmissing : tup.all Option.isSome = false) :
    log_historical_data env nowTicks t1 t2 st = st := by
  rw [log_historical_data, if_pos helapsed, hread]
  simp [hmissing]

/-- C4 witness: the amended theorem applied at the concrete failing reading. -/
theorem C4_amended_witness :
    ((6000 : Int) - (LogState.mk [] 0).lastSaveTicksMs ≥ SAVE_INTERVAL_S * 1000) ∧
    getCurrentSensorTuple sensorEnvNoHum =
      some [some 1000, some 70, some 101325, none, some 512] ∧
    ([some (1000 : ℚ), some 70, some 101325, none, some 512].all Option.isSome = false) ∧
    log_historical_data sensorEnvNoHum 6000 1000 1000 ⟨[], 0⟩ = ⟨[], 0⟩ :=
  ⟨by decide, by decide, by decide,
    C4_amended sensorEnvNoHum 6000 1000 1000 ⟨[], 0⟩
      [some 1000, some 70, some 101325, none, some 512]
      (by decide) (by decide) (by decide)⟩

/-- C5 (confirmed): for a history whose records are in non-decreasing
timestamp order, after the pruning pass of the maybe-log step every remaining
record's timestamp `t` satisfies `now - t ≤ 86400`, where `now` is the
wall-clock time read at the start of the prune. -/
theorem C5_prune_retention_window (now : ℚ) (l : List Json)
    (hsorted : l.Pairwise (fun a b => tsOf a ≤ tsOf b)) :
    ∀ r ∈ prune now l, now - tsOf r ≤ HISTORY_DURATION_S :=
  prune_retention now l hsorted

/-- C5 witness: a concrete sorted two-record history pruned at time 100000
(the first record, aged 99999 s, is dropped; the second, aged 50000 s, kept). -/
theorem C5_witness :
    ([Json.arr [Json.num 1], Json.arr [Json.num 50000]].Pairwise
        (fun a b => tsOf a ≤ tsOf b)) ∧
    (∀ r ∈ prune 100000 [Json.arr [Json.num 1], Json.arr [Json.num 50000]],
        (100000 : ℚ) - tsOf r ≤ HISTORY_DURATION_S) :=
  ⟨by decide, C5_prune_retention_window 100000 _ (by decide)⟩

/-- C6 (confirmed): saving a non-empty list of well-formed 5-tuple history
records with `save_history_to_flash` and reloading with
`load_history_from_flash` yields an identical list: every element decodes back
to the original record, in order, with all values preserved. -/
theorem C6_flash_roundtrip (recs : List Record5) (h : recs ≠ []) :
    (load_history_from_flash
        (some (save_history_to_flash (recs.map record5ToJson))) []).map jsonToRecord5 =
      recs.map some := by
  simp only [load_history_from_flash, save_history_to_flash, List.map_map]
  exact List.map_congr_left fun r _ => jsonToRecord5_record5ToJson r

/-- C6 witness: the round trip on a concrete one-record history. -/
theorem C6_flash_roundtrip_witness :
    ([((1 : ℚ), (2 : ℚ), (3 : ℚ), (4 : ℚ), (5 : ℚ))] ≠ ([] : List Record5)) ∧
    (load_history_from_flash
        (some (save_history_to_flash
          ([((1 : ℚ), 2, 3, 4, 5)].map record5ToJson))) []).map jsonToRecord5 =
      [((1 : ℚ), (2 : ℚ), (3 : ℚ), (4 : ℚ), (5 : ℚ))].map some :=
  ⟨by simp, C6_flash_roundtrip [(1, 2, 3, 4, 5)] (by simp)⟩

/-- C7 counterexample: the claim says the hand-off queue is bounded (finite
capacity).  `SensorMonitorBLE.__init__` builds `asyncio.Queue()` with the
default `maxsize = 0`, which per asyncio semantics means *infinite* capacity
(`full()` is `False` whenever `maxsize <= 0`, regardless of how many items are
queued — shown here with 1000 items already enqueued). -/
theorem C7_counterexample :
    notification_queue_init.maxsize = 0 ∧
    ¬ (0 < notification_queue_init.maxsize) ∧
    AsyncQueue.full ⟨notification_queue_init.maxsize,
      List.replicate 1000 (0, 0, 0, 0)⟩ = false :=
  ⟨rfl, by decide, rfl⟩

/-- C7 (amended): the hand-off queue is created with the default maxsize of 0,
i.e. unbounded, so it is never full and `put_nowait` never raises out of the
callback: a 16-byte payload is always enqueued, and a wrong-size payload is
discarded (`struct.error` caught); the `QueueFull` handler that would drop a
notification is present but unreachable.  The callback never blocks (it only
uses `put_nowait`) and never raises (it is total). -/
theorem C7_amended (items : List Word4) (data : List Nat) (t : Word4) :
    (AsyncQueue.full ⟨0, items⟩ = false) ∧
    (unpack_ffff data = some t →
      notification_handler ⟨0, items⟩ data = ⟨0, items ++ [t]⟩) ∧
    (unpack_ffff data = none →
      notification_handler ⟨0, items⟩ data = ⟨0, items⟩) := by
  have hfull : AsyncQueue.full ⟨0, items⟩ = false := by
    simp [AsyncQueue.full]
  refine ⟨hfull, ?_, ?_⟩
  · intro h
    simp [notification_handler, h, AsyncQueue.put_nowait, hfull]
  · intro h
    simp [notification_handler, h]

/-- C7 witness: a concrete 16-byte payload on the initial queue is decoded and
enqueued. -/
theorem C7_amended_witness :
    unpack_ffff (List.replicate 16 0) = some (0, 0, 0, 0) ∧
    notification_handler ⟨0, []⟩ (List.replicate 16 0) = ⟨0, [(0, 0, 0, 0)]⟩ :=
  ⟨by decide, (C7_amended [] (List.replicate 16 0) (0, 0, 0, 0)).2.1 (by decide)⟩

/-- C8 counterexample: the claim says that for a temperature series with
minimum 70.0 and maximum 72.0 the padded range is [69.8, 72.2] and the major
tick step is 0.5.  The range is right, but the step is not: the padded range
is 2.4, and in the source's bucket table `tick_range <= 2` gives 0.5 while
`tick_range <= 5` gives 1.0 — 2.4 lands in the `<= 5` bucket, step 1.0. -/
theorem C8_counterexample :
    ¬ (paddedRange .temperature 70 72 = (69.8, 72.2) ∧
       temperatureMajorStep ((paddedRange .temperature 70 72).2 -
         (paddedRange .temperature 70 72).1) = 0.5) := by
  intro h
  have h2 := h.2
  norm_num [paddedRange, temperatureMajorStep, num_ticks_target] at h2

/-- C8 (amended): for a temperature series with visible minimum 70.0 and
maximum 72.0, the computed padded Y-range is exactly [69.8, 72.2] (10% of the
2.0 spread on each side) and the chosen major tick step is 1.0 (the padded
range 2.4 falls in the "≤5" bucket, whose step is 1.0). -/
theorem C8_amended :
    paddedRange .temperature 70 72 = (69.8, 72.2) ∧
    temperatureMajorStep ((paddedRange .temperature 70 72).2 -
      (paddedRange .temperature 70 72).1) = 1 := by
  constructor
  · norm_num [paddedRange, zeroRangeBuffer]
  · norm_num [paddedRange, temperatureMajorStep, num_ticks_target]

/-- C9 (confirmed): in an upload cycle, if all 60 one-second-spaced inner-loop
attempts end without a successful POST, the event trace is exactly the 60
attempts followed by one reboot — the reboot is issued exactly once and only
after every attempt; if any of the 60 attempts succeeds, no reboot is issued
at all (the `for`/`else` skips `machine.reset()` on `break`). -/
theorem C9_reboot_watchdog (o : Nat → AttemptOutcome) :
    ((∀ i, i < 60 → o i ≠ .postSuccess) →
      uploadCycle o =
        ((List.range 60).map fun i => CycleEvent.attempt (o i)) ++ [.reboot] ∧
      (uploadCycle o).count .reboot = 1) ∧
    ((∃ i, i < 60 ∧ o i = .postSuccess) → CycleEvent.reboot ∉ uploadCycle o) := by
  constructor
  · intro h
    have hnone : ∀ x ∈ (List.range 60).map o, x ≠ AttemptOutcome.postSuccess := by
      intro x hx
      rcases List.mem_map.mp hx with ⟨i, hi, rfl⟩
      exact h i (List.mem_range.mp hi)
    have heq := innerLoop_of_no_success _ hnone
    rw [List.map_map] at heq
    refine ⟨heq, ?_⟩
    rw [show uploadCycle o = innerLoop ((List.range 60).map o) from rfl, heq]
    rw [List.count_append]
    have hzero : List.count CycleEvent.reboot
        ((List.range 60).map (CycleEvent.attempt ∘ o)) = 0 := by
      rw [List.count_eq_zero]
      intro hmem
      rcases List.mem_map.mp hmem with ⟨i, _, hbad⟩
      exact CycleEvent.noConfusion hbad
    have hone : List.count CycleEvent.reboot [CycleEvent.reboot] = 1 := by decide
    rw [hzero, hone]
  · rintro ⟨i, hi, hs⟩
    exact innerLoop_of_success _ (List.mem_map.mpr ⟨i, List.mem_range.mpr hi, hs⟩)

/-- C9 witness: a cycle in which every attempt fails reboots exactly once,
after all 60 attempts. -/
theorem C9_witness :
    uploadCycle (fun _ => AttemptOutcome.postFail) =
      ((List.range 60).map fun _ => CycleEvent.attempt AttemptOutcome.postFail)
        ++ [.reboot] ∧
    (uploadCycle (fun _ => AttemptOutcome.postFail)).count CycleEvent.reboot = 1 :=
  (C9_reboot_watchdog (fun _ => AttemptOutcome.postFail)).1 (fun _ _ => by decide)

/-- C10 (confirmed): for every text, `x ≥ 0`, `y ≥ 0` and every 512-byte
framebuffer, the driver's `print` never writes outside the framebuffer: when
`y // 8 ≥ 4` the framebuffer is left entirely unchanged; the framebuffer
length stays 512 across the call; the out-of-range warning branch of
`_draw_char` is never reached (every attempted write index
`page*128 + x + col` is below 512); and when every glyph start column
`x + i*6` is at least 128 nothing is drawn.  (`print` is a total function: it
never raises.) -/
theorem C10_print_safety (text : List Char) (x y : Nat) (buf : List Nat)
    (hlen : buf.length = 512) :
    (4 ≤ y / 8 → oledPrint buf text x y = (buf, false)) ∧
    (oledPrint buf text x y).1.length = 512 ∧
    (oledPrint buf text x y).2 = false ∧
    (128 ≤ x → oledPrint buf text x y = (buf, false)) := by
  have hopen : oledPrint buf text x y =
      if y / 8 ≥ PAGES then (buf, false)
      else printLoop x (y / 8) 0 text (buf, false) := rfl
  by_cases hpage : y / 8 ≥ PAGES
  · have hval : oledPrint buf text x y = (buf, false) := by rw [hopen, if_pos hpage]
    exact ⟨fun _ => hval, by rw [hval]; exact hlen, by rw [hval], fun _ => hval⟩
  · have hval : oledPrint buf text x y = printLoop x (y / 8) 0 text (buf, false) := by
      rw [hopen, if_neg hpage]
    have hlt : y / 8 < 4 := by simpa [PAGES] using Nat.lt_of_not_le hpage
    have hinv := printLoop_inv x (y / 8) hlt text 0 (buf, false) hlen rfl
    refine ⟨fun h4 => absurd h4 (by simpa [PAGES] using hpage),
      by rw [hval]; exact hinv.1, by rw [hval]; exact hinv.2, ?_⟩
    intro hx
    rw [hval, printLoop_clipped x (y / 8) hx text 0 (buf, false)]

/-- C10 witness: printing "70" at the origin of the freshly allocated
framebuffer satisfies all the safety conclusions. -/
theorem C10_print_safety_witness :
    initBuffer.length = 512 ∧
    ((4 ≤ 8 / 8 → oledPrint initBuffer ['7', '0'] 0 8 = (initBuffer, false)) ∧
      (oledPrint initBuffer ['7', '0'] 0 8).1.length = 512 ∧
      (oledPrint initBuffer ['7', '0'] 0 8).2 = false ∧
      (128 ≤ 0 → oledPrint initBuffer ['7', '0'] 0 8 = (initBuffer, false))) :=
  ⟨by norm_num [initBuffer, LCDWIDTH, PAGES],
    C10_print_safety ['7', '0'] 0 8 initBuffer
      (by norm_num [initBuffer, LCDWIDTH, PAGES])⟩

end Pimoroni
